import Mathlib

/-!
Verification model of the doraemon service-client runtime
(src/doraemon/services/enhanced_service.py and
src/doraemon/services/async_service.py), as a shallow embedding:
pure Lean functions with explicit state passing, time passed in as a
rational parameter (the value the Python code reads from time.time()).
-/

set_option maxRecDepth 100000

namespace Doraemon

/-! ## Python values and dictionaries

Payloads (params, json_data, data, headers, metadata) are Python dicts
with string keys.  A dict is modelled as an insertion-ordered association
list; the dict operations below mirror CPython semantics (lookup, insert
replacing in place, delete). -/

inductive PyVal where
  | vInt (n : ℤ)
  | vStr (s : String)
  | vBool (b : Bool)
  deriving DecidableEq, Repr

abbrev PyDict := List (String × PyVal)

/-- Dict lookup: value of the first (unique, in a real dict) binding of k. -/
def dictGet? (k : String) : List (String × α) → Option α
  | [] => none
  | (k1, v) :: rest => if k1 = k then some v else dictGet? k rest

/-- Dict insert (d[k] = v): replaces the binding in place if k is present,
otherwise appends, matching CPython insertion-order semantics. -/
def dictInsert (k : String) (v : α) : List (String × α) → List (String × α)
  | [] => [(k, v)]
  | (k1, v1) :: rest =>
    if k1 = k then (k, v) :: rest else (k1, v1) :: dictInsert k v rest

/-- Dict delete (del d[k]).  Association lists built by dictInsert have
unique keys, so removing every binding of k equals CPython del. -/
def dictErase (k : String) (l : List (String × α)) : List (String × α) :=
  l.filter (fun p => decide (p.1 ≠ k))

/-! ## Python string forms (repr), as produced by an f-string

The cache key builder interpolates params, json_data and data into an
f-string; a dict prints as \x7b'k': v, ...\x7d in insertion order and
None prints as "None". -/

def pyReprVal : PyVal → String
  | .vInt n => toString n
  | .vStr s => "\x27" ++ s ++ "\x27"
  | .vBool b => if b then "True" else "False"

def pyReprPairs : List (String × PyVal) → String
  | [] => ""
  | [(k, v)] => "\x27" ++ k ++ "\x27: " ++ pyReprVal v
  | (k, v) :: rest => "\x27" ++ k ++ "\x27: " ++ pyReprVal v ++ ", " ++ pyReprPairs rest

def pyReprDict (d : PyDict) : String := "\x7b" ++ pyReprPairs d ++ "\x7d"

def pyReprOptDict : Option PyDict → String
  | none => "None"
  | some d => pyReprDict d

/-- str.encode(): UTF-8 bytes.  All strings interpolated into cache keys
in this development are ASCII, where UTF-8 bytes equal the code points. -/
def strBytes (s : String) : List Nat := s.data.map Char.toNat

/-! ## MD5 (hashlib.md5(...).hexdigest() from the cache key builder)

RFC 1321, on a byte list, 32-bit words as Nat reduced mod 2^32. -/

def u32 (x : Nat) : Nat := x % 4294967296

def rotl32 (x s : Nat) : Nat := u32 ((x <<< s) ||| (x >>> (32 - s)))

def md5K : List Nat :=
  [0xd76aa478, 0xe8c7b756, 0x242070db, 0xc1bdceee,
   0xf57c0faf, 0x4787c62a, 0xa8304613, 0xfd469501,
   0x698098d8, 0x8b44f7af, 0xffff5bb1, 0x895cd7be,
   0x6b901122, 0xfd987193, 0xa679438e, 0x49b40821,
   0xf61e2562, 0xc040b340, 0x265e5a51, 0xe9b6c7aa,
   0xd62f105d, 0x02441453, 0xd8a1e681, 0xe7d3fbc8,
   0x21e1cde6, 0xc33707d6, 0xf4d50d87, 0x455a14ed,
   0xa9e3e905, 0xfcefa3f8, 0x676f02d9, 0x8d2a4c8a,
   0xfffa3942, 0x8771f681, 0x6d9d6122, 0xfde5380c,
   0xa4beea44, 0x4bdecfa9, 0xf6bb4b60, 0xbebfbc70,
   0x289b7ec6, 0xeaa127fa, 0xd4ef3085, 0x04881d05,
   0xd9d4d039, 0xe6db99e5, 0x1fa27cf8, 0xc4ac5665,
   0xf4292244, 0x432aff97, 0xab9423a7, 0xfc93a039,
   0x655b59c3, 0x8f0ccc92, 0xffeff47d, 0x85845dd1,
   0x6fa87e4f, 0xfe2ce6e0, 0xa3014314, 0x4e0811a1,
   0xf7537e82, 0xbd3af235, 0x2ad7d2bb, 0xeb86d391]

def md5S : List Nat :=
  [7, 12, 17, 22, 7, 12, 17, 22, 7, 12, 17, 22, 7, 12, 17, 22,
   5, 9, 14, 20, 5, 9, 14, 20, 5, 9, 14, 20, 5, 9, 14, 20,
   4, 11, 16, 23, 4, 11, 16, 23, 4, 11, 16, 23, 4, 11, 16, 23,
   6, 10, 15, 21, 6, 10, 15, 21, 6, 10, 15, 21, 6, 10, 15, 21]

/-- One of the 64 MD5 operations, acting on the (a, b, c, d) state. -/
def md5Step (M : List Nat) (st : Nat × Nat × Nat × Nat) (i : Nat) :
    Nat × Nat × Nat × Nat :=
  match st with
  | (a, b, c, d) =>
    let f :=
      if i < 16 then (b &&& c) ||| ((4294967295 ^^^ b) &&& d)
      else if i < 32 then (d &&& b) ||| ((4294967295 ^^^ d) &&& c)
      else if i < 48 then b ^^^ c ^^^ d
      else c ^^^ (b ||| (4294967295 ^^^ d))
    let g :=
      if i < 16 then i
      else if i < 32 then (5 * i + 1) % 16
      else if i < 48 then (3 * i + 5) % 16
      else (7 * i) % 16
    let tmp := u32 (f + a + md5K.getD i 0 + M.getD g 0)
    (d, u32 (b + rotl32 tmp (md5S.getD i 0)), b, c)

/-- 64 bytes into 16 little-endian 32-bit words. -/
def wordsLE : List Nat → List Nat
  | b0 :: b1 :: b2 :: b3 :: rest =>
    (b0 + 256 * b1 + 65536 * b2 + 16777216 * b3) :: wordsLE rest
  | _ => []

def md5Chunk (st : Nat × Nat × Nat × Nat) (chunk : List Nat) :
    Nat × Nat × Nat × Nat :=
  let M := wordsLE chunk
  match st with
  | (a0, b0, c0, d0) =>
    match (List.range 64).foldl (md5Step M) (a0, b0, c0, d0) with
    | (a, b, c, d) => (u32 (a0 + a), u32 (b0 + b), u32 (c0 + c), u32 (d0 + d))

def chunks64Aux : Nat → List Nat → List (List Nat)
  | 0, _ => []
  | _, [] => []
  | fuel + 1, l => l.take 64 :: chunks64Aux fuel (l.drop 64)

/-- Split a byte list into 64-byte chunks (the padded message has a
multiple of 64 bytes). -/
def chunks64 (l : List Nat) : List (List Nat) := chunks64Aux l.length l

/-- 8-byte little-endian length field (bit length mod 2^64). -/
def lenBytesLE (n : Nat) : List Nat :=
  [n % 256, n / 256 % 256, n / 65536 % 256, n / 16777216 % 256,
   n / 4294967296 % 256, n / 1099511627776 % 256,
   n / 281474976710656 % 256, n / 72057594037927936 % 256]

/-- MD5 padding: 0x80, zeros to 56 mod 64, then the 64-bit bit length. -/
def md5Pad (msg : List Nat) : List Nat :=
  let len := msg.length
  let zeros := (119 - len % 64) % 64
  msg ++ [128] ++ List.replicate zeros 0 ++ lenBytesLE ((8 * len) % 18446744073709551616)

def md5Digest (msg : List Nat) : Nat × Nat × Nat × Nat :=
  (chunks64 (md5Pad msg)).foldl md5Chunk
    (1732584193, 4023233417, 2562383102, 271733878)

def hexChar (n : Nat) : Char :=
  if n < 10 then Char.ofNat (48 + n) else Char.ofNat (87 + n)

def byteHex (b : Nat) : String := String.mk [hexChar (b / 16), hexChar (b % 16)]

def wordHexLE (w : Nat) : String :=
  byteHex (w % 256) ++ byteHex (w / 256 % 256) ++
    byteHex (w / 65536 % 256) ++ byteHex (w / 16777216 % 256)

def md5_hexdigest (msg : List Nat) : String :=
  match md5Digest msg with
  | (a, b, c, d) => wordHexLE a ++ wordHexLE b ++ wordHexLE c ++ wordHexLE d

/-- EnhancedService._generate_cache_key: md5 hexdigest of the f-string
"\x7burl\x7d:\x7bparams\x7d:\x7bjson_data\x7d:\x7bdata\x7d". -/
def generate_cache_key (service_url : String)
    (params json_data data : Option PyDict) : String :=
  let content := service_url ++ ":" ++ pyReprOptDict params ++ ":" ++
    pyReprOptDict json_data ++ ":" ++ pyReprOptDict data
  md5_hexdigest (strBytes content)

/-! ## Circuit breaker (EnhancedService and AsyncService share this logic)

time.time() is modelled as an integer number of time-units supplied by
the caller of each state-changing function. -/

structure BreakerState where
  failures : Nat        -- _circuit_breaker_failures (0 at construction)
  lastFailure : ℤ       -- _circuit_breaker_last_failure (0 at construction)
  deriving DecidableEq, Repr

def circuit_breaker_threshold : Nat := 5
def circuit_breaker_timeout : ℤ := 60

/-- _is_circuit_breaker_open: returns the boolean answer together with
the breaker state after the query, because the query resets the failure
counter as a side effect once the open window has elapsed. -/
def is_circuit_breaker_open (now : ℤ) (s : BreakerState) : Bool × BreakerState :=
  if s.failures ≥ circuit_breaker_threshold then
    if now - s.lastFailure < circuit_breaker_timeout then
      (true, s)
    else
      (false, { s with failures := 0 })
  else
    (false, s)

/-- _record_failure -/
def record_failure (now : ℤ) (s : BreakerState) : BreakerState :=
  { failures := s.failures + 1, lastFailure := now }

/-- _record_success -/
def record_success (s : BreakerState) : BreakerState :=
  { s with failures := 0 }

/-! ## ResponseCache

Source keeps two dicts _cache and _timestamps updated in lockstep under
one lock; they are modelled as one association list from key to
(value, insertion timestamp). -/

structure ResponseCache (V : Type) where
  entries : List (String × V × ℤ)
  ttl : ℤ
  deriving DecidableEq, Repr

/-- ResponseCache.get: returns the hit (if fresh) together with the
cache state after the call, as get lazily deletes an expired entry. -/
def ResponseCache.get {V : Type} (c : ResponseCache V) (now : ℤ) (key : String) :
    Option V × ResponseCache V :=
  match dictGet? key c.entries with
  | some (v, ts) =>
    if now - ts < c.ttl then (some v, c)
    else (none, { c with entries := dictErase key c.entries })
  | none => (none, c)

/-- ResponseCache.set -/
def ResponseCache.set {V : Type} (c : ResponseCache V) (now : ℤ) (key : String)
    (value : V) : ResponseCache V :=
  { c with entries := dictInsert key (value, now) c.entries }

/-! ## EnhancedService.__call__ -/

/-- ServiceConfig.  input_proto and output_proto are schema descriptors;
they enter the model through the validation functions passed to the call
(check_proto and from_dict applied to them). -/
structure ServiceConfig where
  name : String
  service_url : String
  service_method : String
  timeout : ℚ := 30
  max_retries : Nat := 3
  pool_connections : Nat := 10
  pool_maxsize : Nat := 20
  verify : Bool := true
  headers : Option PyDict := none
  deriving DecidableEq, Repr

/-- The arguments of the HTTP exchange the call hands to the pooled
session (the Send step); recorded so theorems can state that no network
exchange was issued (sent = none). -/
structure SentRequest where
  url : String
  method : String
  params : Option PyDict
  data : Option PyDict
  json_data : Option PyDict
  verify : PyVal
  headers : PyDict
  timeout : ℚ
  deriving DecidableEq, Repr

/-- Behaviour of the transport for the one exchange a call may issue:
either a requests.exceptions.RequestException, or a response with a
status code and a body (none when response.json() raises ValueError). -/
inductive HttpOutcome where
  | exn
  | resp (status_code : Nat) (body : Option PyDict)
  deriving DecidableEq, Repr

structure CallState (V : Type) where
  breaker : BreakerState
  cache : ResponseCache V
  deriving DecidableEq, Repr

structure CallResult (V : Type) where
  result : Option V
  state : CallState V
  sent : Option SentRequest
  deriving DecidableEq, Repr

/-- timeout = timeout or self.config.timeout: the Python `or` falls back
to the config default when the supplied value is falsy, i.e. None or 0.0. -/
def effective_timeout (timeout : Option ℚ) (default_timeout : ℚ) : ℚ :=
  match timeout with
  | none => default_timeout
  | some t => if t = 0 then default_timeout else t

/-- _check_data = next((x for x in [data, json_data, params] if x is not
None), \x7b\x7d): first non-None of data, json_data, params, else the
empty dict. -/
def check_data (data json_data params : Option PyDict) : PyDict :=
  match data with
  | some d => d
  | none =>
    match json_data with
    | some j => j
    | none =>
      match params with
      | some p => p
      | none => []

/-- request_headers = \x7b\x7d, then updated with the per-call headers
when they are truthy; either way the merge result is the per-call
headers if present, else empty. -/
def merged_headers (headers : Option PyDict) : PyDict :=
  match headers with
  | none => []
  | some h => h

/-- verify = config.verify, overridden by metadata["verify"] when
metadata is truthy and has a "verify" key (an empty dict is falsy and
has no keys, so one lookup suffices). -/
def effective_verify (cfg_verify : Bool) (metadata : Option PyDict) : PyVal :=
  match metadata with
  | none => .vBool cfg_verify
  | some m =>
    match dictGet? "verify" m with
    | some v => v
    | none => .vBool cfg_verify

/-- The part of EnhancedService.__call__ from ValidateInput onward
(after the breaker check and the optional cache lookup). -/
def call_validate_and_send {V : Type}
    (cfg : ServiceConfig)
    (check_input_proto : PyDict → Bool)
    (from_dict_output : PyDict → Option V)
    (outcome : HttpOutcome)
    (now : ℤ) (timeout1 : ℚ)
    (params json_data data headers metadata : Option PyDict)
    (use_cache : Bool) (cache_key : String)
    (breaker : BreakerState) (cache : ResponseCache V) : CallResult V :=
  -- ValidateInput: check_proto(_check_data, input_proto); on failure no send
  if check_input_proto (check_data data json_data params) = false then
    { result := none, state := ⟨breaker, cache⟩, sent := none }
  else
    let req : SentRequest :=
      { url := cfg.service_url
        method := cfg.service_method
        params := params
        data := data
        json_data := json_data
        verify := effective_verify cfg.verify metadata
        headers := merged_headers headers
        timeout := timeout1 }
    match outcome with
    | .exn =>
      -- requests.exceptions.RequestException caught at the Send boundary
      { result := none, state := ⟨record_failure now breaker, cache⟩, sent := some req }
    | .resp status body =>
      if status ≠ 200 then
        { result := none, state := ⟨record_failure now breaker, cache⟩, sent := some req }
      else
        match body with
        | none =>
          -- ValueError from response.json()
          { result := none, state := ⟨record_failure now breaker, cache⟩, sent := some req }
        | some result_data =>
          match from_dict_output result_data with
          | none =>
            -- check_proto(result_data, output_proto) failed
            { result := none, state := ⟨record_failure now breaker, cache⟩, sent := some req }
          | some result =>
            { result := some result
              state := ⟨record_success breaker,
                        if use_cache then ResponseCache.set cache now cache_key result
                        else cache⟩
              sent := some req }

/-- EnhancedService.__call__, with the transport behaviour, the schema
functions (check_proto against input_proto; from_dict against
output_proto, none when it raises) and the clock passed in explicitly.
cache_ttl is a declared argument of the source method that its body
never reads. -/
def EnhancedService.call {V : Type}
    (cfg : ServiceConfig)
    (check_input_proto : PyDict → Bool)
    (from_dict_output : PyDict → Option V)
    (outcome : HttpOutcome)
    (now : ℤ)
    (timeout : Option ℚ)
    (params json_data data : Option PyDict)
    (headers metadata : Option PyDict)
    (use_cache : Bool) (cache_ttl : ℤ)
    (st : CallState V) : CallResult V :=
  -- CheckBreaker (the query may reset the counter as a side effect)
  let ib := is_circuit_breaker_open now st.breaker
  if ib.1 then
    { result := none, state := { breaker := ib.2, cache := st.cache }, sent := none }
  else
    let timeout1 := effective_timeout timeout cfg.timeout
    let cache_key := generate_cache_key cfg.service_url params json_data data
    -- CheckCache (only when the caller opted in; get may evict lazily)
    if use_cache then
      let g := ResponseCache.get st.cache now cache_key
      match g.1 with
      | some cached => { result := some cached, state := ⟨ib.2, g.2⟩, sent := none }
      | none =>
        call_validate_and_send cfg check_input_proto from_dict_output outcome now
          timeout1 params json_data data headers metadata use_cache cache_key ib.2 g.2
    else
      call_validate_and_send cfg check_input_proto from_dict_output outcome now
        timeout1 params json_data data headers metadata use_cache cache_key ib.2 st.cache

/-- EnhancedService.__init__: fresh breaker and a ResponseCache() with
the constructor default ttl of 300. -/
def EnhancedService.init_state (V : Type) : CallState V :=
  { breaker := { failures := 0, lastFailure := 0 }
    cache := { entries := [], ttl := 300 } }

/-! ## AsyncService.batch_call

asyncio.gather(*tasks, return_exceptions=True) returns one slot per
task in task order; the per-request behaviour (AsyncService.__call__,
which may return a value, return None, or raise) is passed in as a
function into Except.  The semaphore only bounds how many calls are
simultaneously in flight, which has no bearing on the returned list. -/

def exception_to_none {E V : Type} : Except E (Option V) → Option V
  | .error _ => none
  | .ok v => v

def batch_call {Req E V : Type} (call : Req → Except E (Option V))
    (requests : List Req) : List (Option V) :=
  (requests.map call).map exception_to_none

/-! ## Concrete example inputs used by witnesses and counterexamples -/

/-- The dict \x7b'a': 1, 'b': 2\x7d. -/
def p_ab : PyDict := [("a", PyVal.vInt 1), ("b", PyVal.vInt 2)]

/-- The same mapping with the keys in the other insertion order. -/
def p_ba : PyDict := [("b", PyVal.vInt 2), ("a", PyVal.vInt 1)]

def cfg_ex : ServiceConfig :=
  { name := "svc", service_url := "http://svc", service_method := "post" }

/-- Example batch behaviour: the call for input 1 raises, every other
input returns a validated result. -/
def exCall : ℕ → Except Unit (Option ℕ) :=
  fun n => if n = 1 then .error () else .ok (some n)

/-- record_failure applied once per element of ts, left to right (one
consecutive recorded failure per time stamp, no intervening success). -/
def apply_failures (ts : List ℤ) (s : BreakerState) : BreakerState :=
  ts.foldl (fun st t => record_failure t st) s

/-! ## Helper lemmas -/

theorem dictGet?_dictInsert_self {α : Type} (k : String) (v : α)
    (l : List (String × α)) : dictGet? k (dictInsert k v l) = some v := by
  induction l with
  | nil => simp [dictInsert, dictGet?]
  | cons p rest ih =>
    obtain ⟨k1, v1⟩ := p
    by_cases h : k1 = k <;> simp [dictInsert, dictGet?, h, ih]

theorem dictGet?_dictErase_self {α : Type} (k : String)
    (l : List (String × α)) : dictGet? k (dictErase k l) = none := by
  induction l with
  | nil => simp [dictErase, dictGet?]
  | cons p rest ih =>
    obtain ⟨k1, v1⟩ := p
    by_cases h : k1 = k <;> simp [dictErase, dictGet?, h] at ih ⊢ <;> simpa [h] using ih

theorem apply_failures_append (ts : List ℤ) (t : ℤ) (s : BreakerState) :
    apply_failures (ts ++ [t]) s = record_failure t (apply_failures ts s) := by
  simp [apply_failures, List.foldl_append]

theorem apply_failures_failures (ts : List ℤ) (s : BreakerState) :
    (apply_failures ts s).failures = s.failures + ts.length := by
  induction ts generalizing s with
  | nil => simp [apply_failures]
  | cons t rest ih =>
    have : apply_failures (t :: rest) s = apply_failures rest (record_failure t s) := by
      simp [apply_failures]
    rw [this, ih]
    simp [record_failure]
    omega

theorem is_circuit_breaker_open_of_true {now : ℤ} {s : BreakerState}
    (h : (is_circuit_breaker_open now s).1 = true) :
    is_circuit_breaker_open now s = (true, s) := by
  unfold is_circuit_breaker_open at h ⊢
  split_ifs at h ⊢ <;> simp_all

theorem call_validate_and_send_invalid {V : Type}
    (cfg : ServiceConfig) (ci : PyDict → Bool) (fo : PyDict → Option V)
    (oc : HttpOutcome) (now : ℤ) (t1 : ℚ)
    (p j d hd md : Option PyDict) (uc : Bool) (key : String)
    (br : BreakerState) (cache : ResponseCache V)
    (hvalid : ci (check_data d j p) = false) :
    call_validate_and_send cfg ci fo oc now t1 p j d hd md uc key br cache =
      { result := none, state := ⟨br, cache⟩, sent := none } := by
  unfold call_validate_and_send
  simp [hvalid]

theorem call_validate_and_send_sent_valid {V : Type}
    (cfg : ServiceConfig) (ci : PyDict → Bool) (fo : PyDict → Option V)
    (oc : HttpOutcome) (now : ℤ) (t1 : ℚ)
    (p j d hd md : Option PyDict) (uc : Bool) (key : String)
    (br : BreakerState) (cache : ResponseCache V)
    (hvalid : ci (check_data d j p) = true) :
    (call_validate_and_send cfg ci fo oc now t1 p j d hd md uc key br cache).sent =
      some { url := cfg.service_url, method := cfg.service_method
             params := p, data := d, json_data := j
             verify := effective_verify cfg.verify md
             headers := merged_headers hd
             timeout := t1 } := by
  unfold call_validate_and_send
  simp only [hvalid]
  cases oc with
  | exn => simp
  | resp status body =>
    by_cases hs : status = 200
    · cases body with
      | none => simp [hs]
      | some rd => cases hfo : fo rd <;> simp [hs, hfo]
    · simp [hs]

/-- Under a closed breaker and (when caching is on) a cache miss, the
call reduces to the validate-and-send tail, running on the breaker state
left by the query and the cache state left by the lookup. -/
theorem call_closed_miss {V : Type}
    (cfg : ServiceConfig) (ci : PyDict → Bool) (fo : PyDict → Option V)
    (oc : HttpOutcome) (now : ℤ) (tmo : Option ℚ)
    (p j d hd md : Option PyDict) (uc : Bool) (ct : ℤ) (st : CallState V)
    (hclosed : (is_circuit_breaker_open now st.breaker).1 = false)
    (hmiss : uc = true →
      (ResponseCache.get st.cache now
        (generate_cache_key cfg.service_url p j d)).1 = none) :
    EnhancedService.call cfg ci fo oc now tmo p j d hd md uc ct st =
      call_validate_and_send cfg ci fo oc now (effective_timeout tmo cfg.timeout)
        p j d hd md uc (generate_cache_key cfg.service_url p j d)
        (is_circuit_breaker_open now st.breaker).2
        (if uc then
          (ResponseCache.get st.cache now
            (generate_cache_key cfg.service_url p j d)).2
         else st.cache) := by
  unfold EnhancedService.call
  cases uc with
  | false => simp [hclosed]
  | true => simp [hclosed, hmiss rfl]

/-! ## Claims -/

/-- C7: a single recorded success sets the consecutive-failure counter
to 0, regardless of the prior value of the breaker state. -/
theorem C7_success_resets_counter (s : BreakerState) :
    (record_success s).failures = 0 := rfl

/-- C4: after set(k, v) at time t0, get(k) at a time now with age
now - t0 strictly below the ttl returns exactly v and leaves the cache
unchanged; once the ttl has elapsed (age at least ttl), get(k) returns
absent and removes the entry, so the key is no longer stored. -/
theorem C4_cache_roundtrip_and_expiry {V : Type} (c : ResponseCache V)
    (k : String) (v : V) (t0 now : ℤ) :
    (now - t0 < c.ttl →
      ResponseCache.get (ResponseCache.set c t0 k v) now k =
        (some v, ResponseCache.set c t0 k v)) ∧
    (c.ttl ≤ now - t0 →
      (ResponseCache.get (ResponseCache.set c t0 k v) now k).1 = none ∧
      dictGet? k ((ResponseCache.get (ResponseCache.set c t0 k v) now k).2).entries =
        none) := by
  have hget : dictGet? k (dictInsert k (v, t0) c.entries) = some (v, t0) :=
    dictGet?_dictInsert_self k (v, t0) c.entries
  constructor
  · intro hfresh
    simp [ResponseCache.get, hget, ResponseCache.set, hfresh]
  · intro hstale
    have hnot : ¬ (now - t0 < c.ttl) := by omega
    simp [ResponseCache.get, ResponseCache.set, hget, hnot, dictGet?_dictErase_self]

/-- C4 witness: a concrete round trip at ttl 300, fresh at age 10 and
expired (entry deleted) at age 300. -/
theorem C4_cache_roundtrip_and_expiry_witness :
    ((10 : ℤ) - 0 < (300 : ℤ) ∧
      ResponseCache.get (ResponseCache.set ⟨[], 300⟩ 0 "k" (7 : ℕ)) 10 "k" =
        (some 7, ResponseCache.set ⟨[], 300⟩ 0 "k" 7)) ∧
    ((300 : ℤ) ≤ (300 : ℤ) - 0 ∧
      (ResponseCache.get (ResponseCache.set ⟨[], 300⟩ 0 "k" (7 : ℕ)) 300 "k").1 = none ∧
      dictGet? "k"
        ((ResponseCache.get (ResponseCache.set ⟨[], 300⟩ 0 "k" (7 : ℕ)) 300 "k").2).entries =
        none) := by
  refine ⟨⟨by decide, ?_⟩, ⟨by decide, ?_⟩⟩
  · exact (C4_cache_roundtrip_and_expiry ⟨[], 300⟩ "k" 7 0 10).1 (by decide)
  · exact (C4_cache_roundtrip_and_expiry ⟨[], 300⟩ "k" 7 0 300).2 (by decide)

/-- C3: the batch result has the length of the input list, the entry at
each position i is the outcome of the call for input i (absent when that
call raised), and a raising call leaves every other position equal to
what its own call produced. -/
theorem C3_batch_totality_order {Req E V : Type}
    (call : Req → Except E (Option V)) (requests : List Req)
    (i : Nat) (hi : i < requests.length) :
    (batch_call call requests).length = requests.length ∧
    (batch_call call requests)[i]? =
      some (exception_to_none (call (requests.get ⟨i, hi⟩))) ∧
    (∀ e : E, call (requests.get ⟨i, hi⟩) = .error e →
      (batch_call call requests)[i]? = some none) := by
  refine ⟨by simp [batch_call], ?_, ?_⟩
  · simp [batch_call, List.getElem?_map, List.getElem?_eq_getElem hi]
  · intro e he
    have he2 : call requests[i] = .error e := by
      simpa [List.get_eq_getElem] using he
    simp [batch_call, List.getElem?_map, List.getElem?_eq_getElem hi, he2,
      exception_to_none]

/-- C3 witness: batch over [10, 1, 20] where the call for input 1
raises: three slots, absent in the middle, results of the sibling calls
in place. -/
theorem C3_batch_totality_order_witness :
    1 < ([10, 1, 20] : List ℕ).length ∧
    (batch_call exCall [10, 1, 20]).length = 3 ∧
    (batch_call exCall [10, 1, 20])[1]? = some none ∧
    (batch_call exCall [10, 1, 20])[0]? = some (some 10) ∧
    (batch_call exCall [10, 1, 20])[2]? = some (some 20) := by
  have h := C3_batch_totality_order exCall [10, 1, 20] 1 (by decide)
  refine ⟨by decide, h.1.trans (by decide), ?_, by decide, by decide⟩
  exact h.2.2 () rfl

/-- C10: the cache_ttl argument of the blocking call is dead: two calls
identical in everything but cache_ttl return the same result, state and
request, and the ResponseCache the constructor installs has the fixed
ttl 300 that alone governs expiry. -/
theorem C10_cache_ttl_unused {V : Type}
    (cfg : ServiceConfig) (ci : PyDict → Bool) (fo : PyDict → Option V)
    (oc : HttpOutcome) (now : ℤ) (tmo : Option ℚ)
    (p j d hd md : Option PyDict) (uc : Bool) (ct1 ct2 : ℤ) (st : CallState V) :
    EnhancedService.call cfg ci fo oc now tmo p j d hd md uc ct1 st =
      EnhancedService.call cfg ci fo oc now tmo p j d hd md uc ct2 st ∧
    (EnhancedService.init_state V).cache.ttl = 300 :=
  ⟨rfl, rfl⟩

/-- C1: from any breaker state, after at least threshold (5) consecutive
recorded failures with no intervening success, the breaker query reports
Open — leaving the state untouched, so every call short-circuits with an
absent result and no exchange — at every time strictly less than the
open-duration (60) past the last failure; at any query at or past 60
time-units it resets the failure counter to 0 as a side effect, reports
Closed, and a call at such a time is admitted past the breaker (its
exchange is issued). -/
theorem C1_breaker_open_then_autoreset (s : BreakerState) (ts : List ℤ)
    (tLast : ℤ) (hN : circuit_breaker_threshold ≤ ts.length + 1) :
    (∀ now : ℤ, now - tLast < circuit_breaker_timeout →
      is_circuit_breaker_open now (apply_failures (ts ++ [tLast]) s) =
        (true, apply_failures (ts ++ [tLast]) s) ∧
      ∀ {V : Type} (cfg : ServiceConfig) (ci : PyDict → Bool)
        (fo : PyDict → Option V) (oc : HttpOutcome) (tmo : Option ℚ)
        (p j d hd md : Option PyDict) (uc : Bool) (ct : ℤ)
        (cache : ResponseCache V),
        (EnhancedService.call cfg ci fo oc now tmo p j d hd md uc ct
          ⟨apply_failures (ts ++ [tLast]) s, cache⟩).result = none ∧
        (EnhancedService.call cfg ci fo oc now tmo p j d hd md uc ct
          ⟨apply_failures (ts ++ [tLast]) s, cache⟩).sent = none) ∧
    (∀ now : ℤ, circuit_breaker_timeout ≤ now - tLast →
      is_circuit_breaker_open now (apply_failures (ts ++ [tLast]) s) =
        (false, { apply_failures (ts ++ [tLast]) s with failures := 0 }) ∧
      ∀ {V : Type} (cfg : ServiceConfig) (fo : PyDict → Option V)
        (oc : HttpOutcome) (tmo : Option ℚ) (p j d hd md : Option PyDict)
        (ct : ℤ) (cache : ResponseCache V),
        ((EnhancedService.call cfg (fun _ => true) fo oc now tmo p j d hd md
          false ct ⟨apply_failures (ts ++ [tLast]) s, cache⟩).sent).isSome =
          true) := by
  have hfail : (apply_failures (ts ++ [tLast]) s).failures =
      s.failures + ts.length + 1 := by
    simp [apply_failures_append, record_failure, apply_failures_failures]
  have hlast : (apply_failures (ts ++ [tLast]) s).lastFailure = tLast := by
    rw [apply_failures_append]; rfl
  have hge : circuit_breaker_threshold ≤ (apply_failures (ts ++ [tLast]) s).failures := by
    rw [hfail]; omega
  constructor
  · intro now hlt
    have hopen : is_circuit_breaker_open now (apply_failures (ts ++ [tLast]) s) =
        (true, apply_failures (ts ++ [tLast]) s) := by
      unfold is_circuit_breaker_open
      split_ifs with h1 h2 <;> first | rfl | omega
    refine ⟨hopen, ?_⟩
    intro V cfg ci fo oc tmo p j d hd md uc ct cache
    constructor <;> simp [EnhancedService.call, hopen]
  · intro now h60
    have hclosed : is_circuit_breaker_open now (apply_failures (ts ++ [tLast]) s) =
        (false, { apply_failures (ts ++ [tLast]) s with failures := 0 }) := by
      unfold is_circuit_breaker_open
      split_ifs with h1 h2 <;> first | rfl | omega
    refine ⟨hclosed, ?_⟩
    intro V cfg fo oc tmo p j d hd md ct cache
    have hcl1 : (is_circuit_breaker_open now
        (apply_failures (ts ++ [tLast]) s)).1 = false := by rw [hclosed]
    rw [call_closed_miss cfg (fun _ => true) fo oc now tmo p j d hd md false ct
      ⟨apply_failures (ts ++ [tLast]) s, cache⟩ hcl1
      (fun h => absurd h (by decide))]
    rw [call_validate_and_send_sent_valid _ _ _ _ _ _ _ _ _ _ _ _ _ _ _ rfl]
    rfl

/-- C1 witness: 5 consecutive failures at times 1..5 from a fresh
breaker; open at time 10 (call short-circuits), auto-reset and closed at
time 70. -/
theorem C1_breaker_open_then_autoreset_witness :
    circuit_breaker_threshold ≤ ([1, 2, 3, 4] : List ℤ).length + 1 ∧
    is_circuit_breaker_open 10 (apply_failures ([1, 2, 3, 4] ++ [5]) ⟨0, 0⟩) =
      (true, apply_failures ([1, 2, 3, 4] ++ [5]) ⟨0, 0⟩) ∧
    (EnhancedService.call cfg_ex (fun _ => true) (fun _ => some (0 : ℕ))
      (.resp 200 (some [])) 10 none none none none none none false 300
      ⟨apply_failures ([1, 2, 3, 4] ++ [5]) ⟨0, 0⟩, ⟨[], 300⟩⟩).result = none ∧
    is_circuit_breaker_open 70 (apply_failures ([1, 2, 3, 4] ++ [5]) ⟨0, 0⟩) =
      (false, { apply_failures ([1, 2, 3, 4] ++ [5]) ⟨0, 0⟩ with failures := 0 }) := by
  have h := C1_breaker_open_then_autoreset ⟨0, 0⟩ [1, 2, 3, 4] 5 (by decide)
  exact ⟨by decide, (h.1 10 (by decide)).1,
    ((h.1 10 (by decide)).2 cfg_ex (fun _ => true) (fun _ => some (0 : ℕ))
      (.resp 200 (some [])) none none none none none none false 300 ⟨[], 300⟩).1,
    (h.2 70 (by decide)).1⟩

/-- C5: a call made while the breaker query answers Open returns absent,
issues no exchange, and leaves the failure counter, last-failure stamp
and cache exactly as they were. -/
theorem C5_open_short_circuit_atomic {V : Type}
    (cfg : ServiceConfig) (ci : PyDict → Bool) (fo : PyDict → Option V)
    (oc : HttpOutcome) (now : ℤ) (tmo : Option ℚ)
    (p j d hd md : Option PyDict) (uc : Bool) (ct : ℤ) (st : CallState V)
    (hopen : (is_circuit_breaker_open now st.breaker).1 = true) :
    (EnhancedService.call cfg ci fo oc now tmo p j d hd md uc ct st).result = none ∧
    (EnhancedService.call cfg ci fo oc now tmo p j d hd md uc ct st).sent = none ∧
    (EnhancedService.call cfg ci fo oc now tmo p j d hd md uc ct st).state.breaker =
      st.breaker ∧
    (EnhancedService.call cfg ci fo oc now tmo p j d hd md uc ct st).state.cache =
      st.cache := by
  have h2 := is_circuit_breaker_open_of_true hopen
  refine ⟨?_, ?_, ?_, ?_⟩ <;> simp [EnhancedService.call, h2]

/-- C5 witness: a breaker with 5 failures, last at time 100, queried at
time 110: the concrete call returns absent with nothing sent and the
state intact. -/
theorem C5_open_short_circuit_atomic_witness :
    (is_circuit_breaker_open 110
      ((⟨⟨5, 100⟩, ⟨[], 300⟩⟩ : CallState ℕ).breaker)).1 = true ∧
    (EnhancedService.call cfg_ex (fun _ => true) (fun _ => some (0 : ℕ))
      (.resp 200 (some [])) 110 none none none none none none false 300
      ⟨⟨5, 100⟩, ⟨[], 300⟩⟩).result = none ∧
    (EnhancedService.call cfg_ex (fun _ => true) (fun _ => some (0 : ℕ))
      (.resp 200 (some [])) 110 none none none none none none false 300
      ⟨⟨5, 100⟩, ⟨[], 300⟩⟩).sent = none ∧
    (EnhancedService.call cfg_ex (fun _ => true) (fun _ => some (0 : ℕ))
      (.resp 200 (some [])) 110 none none none none none none false 300
      ⟨⟨5, 100⟩, ⟨[], 300⟩⟩).state.breaker = ⟨5, 100⟩ := by
  have h := C5_open_short_circuit_atomic cfg_ex (fun _ => true)
    (fun _ => some (0 : ℕ)) (.resp 200 (some [])) 110 none none none none none
    none false 300 ⟨⟨5, 100⟩, ⟨[], 300⟩⟩ (by decide)
  exact ⟨by decide, h.1, h.2.1, h.2.2.1⟩

/-- C6: when the breaker admits the call and the cache does not serve it,
the payload validated is check_data, the first non-absent of (explicit
body, JSON body, query parameters); if the validator rejects it the call
returns absent with no exchange issued, and if it accepts, the exchange
is issued. -/
theorem C6_input_validation_gate {V : Type}
    (cfg : ServiceConfig) (ci : PyDict → Bool) (fo : PyDict → Option V)
    (oc : HttpOutcome) (now : ℤ) (tmo : Option ℚ)
    (p j d hd md : Option PyDict) (uc : Bool) (ct : ℤ) (st : CallState V)
    (hclosed : (is_circuit_breaker_open now st.breaker).1 = false)
    (hmiss : uc = true →
      (ResponseCache.get st.cache now
        (generate_cache_key cfg.service_url p j d)).1 = none) :
    (ci (check_data d j p) = false →
      (EnhancedService.call cfg ci fo oc now tmo p j d hd md uc ct st).result = none ∧
      (EnhancedService.call cfg ci fo oc now tmo p j d hd md uc ct st).sent = none) ∧
    (ci (check_data d j p) = true →
      ((EnhancedService.call cfg ci fo oc now tmo p j d hd md uc ct st).sent).isSome =
        true) := by
  rw [call_closed_miss cfg ci fo oc now tmo p j d hd md uc ct st hclosed hmiss]
  constructor
  · intro hv
    rw [call_validate_and_send_invalid _ _ _ _ _ _ _ _ _ _ _ _ _ _ _ hv]
    exact ⟨rfl, rfl⟩
  · intro hv
    rw [call_validate_and_send_sent_valid _ _ _ _ _ _ _ _ _ _ _ _ _ _ _ hv]
    rfl

/-- C6 witness: a rejecting validator on a call carrying only query
parameters: absent result and nothing reaches the transport. -/
theorem C6_input_validation_gate_witness :
    (is_circuit_breaker_open 10 (EnhancedService.init_state ℕ).breaker).1 = false ∧
    (EnhancedService.call cfg_ex (fun _ => false) (fun _ => some (0 : ℕ)) .exn 10
      none (some p_ab) none none none none false 300
      (EnhancedService.init_state ℕ)).result = none ∧
    (EnhancedService.call cfg_ex (fun _ => false) (fun _ => some (0 : ℕ)) .exn 10
      none (some p_ab) none none none none false 300
      (EnhancedService.init_state ℕ)).sent = none := by
  have h := C6_input_validation_gate cfg_ex (fun _ => false)
    (fun _ => some (0 : ℕ)) .exn 10 none (some p_ab) none none none none false
    300 (EnhancedService.init_state ℕ) (by decide) (fun h => absurd h (by decide))
  exact ⟨by decide, (h.1 rfl).1, (h.1 rfl).2⟩

/-- C8: on a received response, any status other than exactly 200
(other 2xx included) makes the call record a breaker failure and return
absent; a non-absent result is only possible when the status is 200. -/
theorem C8_strict_200_success {V : Type}
    (cfg : ServiceConfig) (ci : PyDict → Bool) (fo : PyDict → Option V)
    (status : Nat) (body : Option PyDict) (now : ℤ) (tmo : Option ℚ)
    (p j d hd md : Option PyDict) (uc : Bool) (ct : ℤ) (st : CallState V)
    (hclosed : (is_circuit_breaker_open now st.breaker).1 = false)
    (hmiss : uc = true →
      (ResponseCache.get st.cache now
        (generate_cache_key cfg.service_url p j d)).1 = none)
    (hvalid : ci (check_data d j p) = true) :
    (status ≠ 200 →
      (EnhancedService.call cfg ci fo (.resp status body) now tmo p j d hd md uc ct
        st).result = none ∧
      (EnhancedService.call cfg ci fo (.resp status body) now tmo p j d hd md uc ct
        st).state.breaker =
        record_failure now (is_circuit_breaker_open now st.breaker).2) ∧
    ((EnhancedService.call cfg ci fo (.resp status body) now tmo p j d hd md uc ct
        st).result.isSome = true → status = 200) := by
  rw [call_closed_miss cfg ci fo (.resp status body) now tmo p j d hd md uc ct st
    hclosed hmiss]
  constructor
  · intro hs
    unfold call_validate_and_send
    simp [hvalid, hs]
  · by_cases hs : status = 200
    · intro _
      exact hs
    · intro hres
      exfalso
      unfold call_validate_and_send at hres
      simp [hvalid, hs] at hres

/-- C8 witness: a 201 response is recorded as a failure and yields an
absent result on a fresh service state. -/
theorem C8_strict_200_success_witness :
    (is_circuit_breaker_open 10 (EnhancedService.init_state ℕ).breaker).1 = false ∧
    (201 : Nat) ≠ 200 ∧
    (EnhancedService.call cfg_ex (fun _ => true) (fun _ => some (0 : ℕ))
      (.resp 201 (some [])) 10 none none none none none none false 300
      (EnhancedService.init_state ℕ)).result = none ∧
    (EnhancedService.call cfg_ex (fun _ => true) (fun _ => some (0 : ℕ))
      (.resp 201 (some [])) 10 none none none none none none false 300
      (EnhancedService.init_state ℕ)).state.breaker =
      record_failure 10
        (is_circuit_breaker_open 10 (EnhancedService.init_state ℕ).breaker).2 := by
  have h := C8_strict_200_success cfg_ex (fun _ => true) (fun _ => some (0 : ℕ))
    201 (some []) 10 none none none none none none false 300
    (EnhancedService.init_state ℕ) (by decide) (fun h => absurd h (by decide)) rfl
  exact ⟨by decide, by decide, (h.1 (by decide)).1, (h.1 (by decide)).2⟩

/-- C9 counterexample: the claim "an explicitly supplied per-call timeout
is always the one the exchange is issued with" fails at the supplied
timeout 0: Python treats 0.0 as falsy, so timeout or config.timeout
falls back to the default 30 and the exchange is issued with 30, not 0. -/
theorem C9_counterexample :
    Option.map SentRequest.timeout
      (EnhancedService.call cfg_ex (fun _ => true) (fun _ => some (0 : ℕ))
        (.resp 200 (some [])) 100 (some 0) none none none none none false 300
        (EnhancedService.init_state ℕ)).sent = some 30 ∧ (30 : ℚ) ≠ 0 := by
  constructor
  · decide
  · decide

/-- C9 (amended): the exchange is issued with timeout or config.timeout
under Python truthiness — a supplied non-zero per-call timeout is used
as given, while a missing timeout, and likewise a supplied timeout of 0
(falsy), fall back to the config default. -/
theorem C9_timeout_override_fallback {V : Type}
    (cfg : ServiceConfig) (ci : PyDict → Bool) (fo : PyDict → Option V)
    (oc : HttpOutcome) (now : ℤ) (tmo : Option ℚ)
    (p j d hd md : Option PyDict) (uc : Bool) (ct : ℤ) (st : CallState V)
    (hclosed : (is_circuit_breaker_open now st.breaker).1 = false)
    (hmiss : uc = true →
      (ResponseCache.get st.cache now
        (generate_cache_key cfg.service_url p j d)).1 = none)
    (hvalid : ci (check_data d j p) = true) :
    Option.map SentRequest.timeout
        (EnhancedService.call cfg ci fo oc now tmo p j d hd md uc ct st).sent =
      some (effective_timeout tmo cfg.timeout) ∧
    (∀ q : ℚ, q ≠ 0 → effective_timeout (some q) cfg.timeout = q) ∧
    effective_timeout none cfg.timeout = cfg.timeout ∧
    effective_timeout (some 0) cfg.timeout = cfg.timeout := by
  refine ⟨?_, ?_, rfl, by simp [effective_timeout]⟩
  · rw [call_closed_miss cfg ci fo oc now tmo p j d hd md uc ct st hclosed hmiss]
    rw [call_validate_and_send_sent_valid _ _ _ _ _ _ _ _ _ _ _ _ _ _ _ hvalid]
    rfl
  · intro q hq
    simp [effective_timeout, hq]

/-- C9 witness: with per-call timeout 2 the exchange carries 2; the
effective-timeout facts are instantiated at the config default 30. -/
theorem C9_timeout_override_fallback_witness :
    (is_circuit_breaker_open 100 (EnhancedService.init_state ℕ).breaker).1 = false ∧
    Option.map SentRequest.timeout
        (EnhancedService.call cfg_ex (fun _ => true) (fun _ => some (0 : ℕ))
          (.resp 200 (some [])) 100 (some 2) none none none none none false 300
          (EnhancedService.init_state ℕ)).sent =
      some (effective_timeout (some 2) cfg_ex.timeout) ∧
    effective_timeout (some 2) cfg_ex.timeout = 2 ∧
    effective_timeout none cfg_ex.timeout = cfg_ex.timeout := by
  have h := C9_timeout_override_fallback cfg_ex (fun _ => true)
    (fun _ => some (0 : ℕ)) (.resp 200 (some [])) 100 (some 2) none none none
    none none false 300 (EnhancedService.init_state ℕ) (by decide)
    (fun h => absurd h (by decide)) rfl
  exact ⟨by decide, h.1, h.2.1 2 (by decide), h.2.2.1⟩

/-- C2 counterexample: the two dicts \x7b'a': 1, 'b': 2\x7d and
\x7b'b': 2, 'a': 1\x7d are the same mapping (a permutation of the same
bindings), yet the cache key builder, which stringifies them in
enumeration order before hashing, produces two different keys. -/
theorem C2_counterexample :
    List.Perm p_ab p_ba ∧
    generate_cache_key "http://svc" (some p_ab) none none ≠
      generate_cache_key "http://svc" (some p_ba) none none := by
  constructor
  · decide
  · decide

/-- C2 (amended): the cache key is a deterministic function of the
Python string forms of (params, json_data, data) interpolated after the
URL — calls whose payloads stringify identically (in particular,
identical mappings enumerated in the same order) get the same key; no
canonicalization happens before hashing, so equal mappings enumerated in
different orders may get different keys. -/
theorem C2_key_determined_by_string_form (url : String)
    (p1 p2 j1 j2 d1 d2 : Option PyDict)
    (hp : pyReprOptDict p1 = pyReprOptDict p2)
    (hj : pyReprOptDict j1 = pyReprOptDict j2)
    (hd : pyReprOptDict d1 = pyReprOptDict d2) :
    generate_cache_key url p1 j1 d1 = generate_cache_key url p2 j2 d2 := by
  unfold generate_cache_key
  rw [hp, hj, hd]

/-- C2 witness: two calls with the identically-ordered payload get the
identical key. -/
theorem C2_key_determined_by_string_form_witness :
    pyReprOptDict (some p_ab) = pyReprOptDict (some p_ab) ∧
    generate_cache_key "http://svc" (some p_ab) (some p_ab) none =
      generate_cache_key "http://svc" (some p_ab) (some p_ab) none :=
  ⟨rfl, C2_key_determined_by_string_form "http://svc" (some p_ab) (some p_ab)
    (some p_ab) (some p_ab) none none rfl rfl rfl⟩

end Doraemon
